import Mathlib

/-! Shallow embedding of `doc/src/collate_data.py` (the hexdoc book renderer).

The Python renderer writes HTML to a shared text stream; some code paths
raise exceptions (`ValueError` for an unknown style tag, `KeyError` for a
missing dict key or unknown image namespace, ...).  We embed each writing
function as a pure function returning `Out = List Token × Option Err`:
the list of markup tokens the function printed to the stream before
returning or raising, together with the exception it raised (if any).
Sequencing (`Out.seq`) short-circuits on an exception, and the embedding of
Python's `with PairTag(...)` block (`withPair`) appends the closing tag on
both the normal and the exceptional exit path, exactly as the context
manager's `__exit__` does.  The final document string is obtained by
rendering the token list (`renderTokens`); each token renders to exactly
the string the Python `print(..., end="")` calls emit.

Python dynamic values that flow into pages, attribute bags and style
values are embedded as the inductive `PValue`.  Patchouli pages are dicts
in the source, so `Page` is an association list with `pget` as `dict.get`.
-/

namespace Hexdoc

/-- Single-quote character (Python `repr` quotes strings with it). -/
def sqChar : Char := Char.ofNat 39

/-- Double-quote character. -/
def dqChar : Char := Char.ofNat 34

/-- Single quote as a string. -/
def sq : String := String.singleton sqChar

/-- Double quote as a string. -/
def dq : String := String.singleton dqChar

/-- Concatenation of a list of strings; models Python `"".join(...)`. -/
def strJoin : List String → String
  | [] => ""
  | s :: rest => s ++ strJoin rest

/-- Is `needle` a prefix of the character list? (Python `str.startswith`.) -/
def isPrefixCh : List Char → List Char → Bool
  | [], _ => true
  | _ :: _, [] => false
  | a :: as, b :: bs => a == b && isPrefixCh as bs

/-- Does `hay` contain `needle` as a contiguous run? (Python `in` on str.) -/
def containsCh (needle : List Char) : List Char → Bool
  | [] => isPrefixCh needle []
  | c :: rest => isPrefixCh needle (c :: rest) || containsCh needle rest

/-- Python `needle in hay` for strings. -/
def strContains (hay needle : String) : Bool :=
  containsCh needle.data hay.data

/-- Python `s.startswith(p)`. -/
def strStartsWith (s p : String) : Bool :=
  isPrefixCh p.data s.data

/-- Python `s.replace(a, b)` restricted to one-character `a`, `b`
(the source only replaces single characters: `"#"→"@"`, `"_"→"-"`). -/
def pyReplaceChar (s : String) (a b : Char) : String :=
  String.mk (s.data.map (fun c => if c == a then b else c))

/-- Python `s.lower()` (ASCII case folding as used for compass directions). -/
def pyLower (s : String) : String :=
  String.mk (s.data.map Char.toLower)

/-- Drop leading whitespace characters. -/
def dropLeadingWs : List Char → List Char
  | [] => []
  | c :: rest => if c.isWhitespace then dropLeadingWs rest else c :: rest

/-- Python `s.strip()`. -/
def pyStrip (s : String) : String :=
  String.mk ((dropLeadingWs (dropLeadingWs s.data.reverse).reverse))

/-- Split a character list at every occurrence of `sep`; keeps empty
segments (Python `s.split(sep)` with an explicit separator).  Returns the
first segment and the remaining segments. -/
def splitChAux (sep : Char) : List Char → List Char × List (List Char)
  | [] => ([], [])
  | c :: cs =>
    let r := splitChAux sep cs
    if c == sep then ([], r.1 :: r.2) else (c :: r.1, r.2)

/-- Python `s.split(sep)` for a one-character separator. -/
def pySplitChar (sep : Char) (s : String) : List String :=
  let r := splitChAux sep s.data
  (r.1 :: r.2).map String.mk

/-- Split into lines keeping the terminating newline on each line; returns
the first segment and the rest (helper for Python `str.splitlines(True)`). -/
def splitKeepNlAux : List Char → List Char × List (List Char)
  | [] => ([], [])
  | c :: cs =>
    let r := splitKeepNlAux cs
    if c == '\n' then ([c], r.1 :: r.2) else (c :: r.1, r.2)

/-- Python `s.splitlines(True)`: lines keep their newline, and there is no
empty trailing line (so `""` gives `[]`).  The source template is scanned
with this.  (Python also splits on `\r` and other line boundaries; the
templates this program scans use `\n`.) -/
def pySplitlinesKeepends (s : String) : List String :=
  let r := splitKeepNlAux s.data
  let segs := (r.1 :: r.2).map String.mk
  if segs.getLast? = some "" then segs.dropLast else segs

/-- Python `s.split()` with no argument: split on runs of whitespace,
no empty segments. -/
def splitWsAux : List Char → List (List Char)
  | [] => []
  | c :: rest =>
    let r := splitWsAux rest
    if c.isWhitespace then r
    else
      match r, rest with
      | _, [] => [[c]]
      | _, c2 :: _ =>
        if c2.isWhitespace then [c] :: r
        else
          match r with
          | [] => [[c]]
          | w :: ws => (c :: w) :: ws

/-- Python `line.split()`. -/
def splitWs (s : String) : List String :=
  (splitWsAux s.data).map String.mk

/-- One character of `html.escape(s, quote=True)` (the default used by
`Stream.text` and `tag_args`): escapes `&`, `<`, `>`, `"` and the single
quote. -/
def escapeChar (c : Char) : List Char :=
  if c == '&' then ("&amp;").data
  else if c == '<' then ("&lt;").data
  else if c == '>' then ("&gt;").data
  else if c == dqChar then ("&quot;").data
  else if c == sqChar then ("&#x27;").data
  else [c]

/-- Source `html.escape` over a character list. -/
def escapeChars : List Char → List Char
  | [] => []
  | c :: cs => escapeChar c ++ escapeChars cs

/-- Python `html.escape(s)` (with the default `quote=True`). -/
def escape (s : String) : String :=
  String.mk (escapeChars s.data)

/-- One character of the body of Python `repr` of a string: escapes the
backslash, the quote character in use, and the common control characters.
(Full `repr` also hex-escapes other non-printables; no such character is
produced by the renderer, which only ever `repr`s html-escaped text.) -/
def pyReprEscChar (quote : Char) (c : Char) : List Char :=
  if c == '\\' then ['\\', '\\']
  else if c == quote then ['\\', quote]
  else if c == '\n' then ['\\', 'n']
  else if c == '\t' then ['\\', 't']
  else if c == '\r' then ['\\', 'r']
  else [c]

/-- Body of `repr` for a chosen quote character. -/
def pyReprBody (quote : Char) : List Char → List Char
  | [] => []
  | c :: cs => pyReprEscChar quote c ++ pyReprBody quote cs

/-- Python `repr(s)` for a string: single-quoted, unless the string
contains a single quote and no double quote (then double-quoted). -/
def pyRepr (s : String) : String :=
  if s.data.contains sqChar && !(s.data.contains dqChar) then
    dq ++ String.mk (pyReprBody dqChar s.data) ++ dq
  else
    sq ++ String.mk (pyReprBody sqChar s.data) ++ sq

/-- A Patchouli pattern operation (`pattern.angle_sig`, `pattern.direction`,
`pattern.is_per_world` attribute accesses in the source). -/
structure PatternInfo where
  angle_sig : String
  direction : String
  is_per_world : Bool

/-- Python exceptions raised by the renderer. -/
inductive Err where
  | valueError (msg : String)
  | keyError (key : String)
  | typeError (msg : String)
  | indexError
deriving DecidableEq

mutual

/-- A dynamic Python value as it occurs in page dicts, style values and
attribute bags: a string, an int, a bool, `None`, a list of strings, an
attribute mapping (the `para` style value), a `FormatTree`, or a list of
pattern operations. -/
inductive PValue where
  | s (v : String)
  | n (v : Nat)
  | b (v : Bool)
  | null
  | list (vs : List String)
  | attrs (kvs : List (String × String))
  | fmt (t : FormatTree)
  | ops (ps : List PatternInfo)

/-- Source `common.formatting.FormatTree`: either a plain string leaf (the source's
`FormatTree | str` union) or a styled node with an ordered list of children. -/
inductive FormatTree where
  | str (s : String)
  | tree (style : Style) (children : FTList)

/-- The style of a `FormatTree` node: a tag (`"base"`, `"para"`, `"color"`,
...) and its associated value. -/
inductive Style where
  | mk (type : String) (value : PValue)

/-- List of children of a `FormatTree` node (spelled out so that all
recursions stay structural). -/
inductive FTList where
  | nil
  | cons (hd : FormatTree) (tl : FTList)

end

/-- Source `style.type` accessor. -/
def Style.type : Style → String
  | Style.mk t _ => t

/-- Source `style.value` accessor. -/
def Style.value : Style → PValue
  | Style.mk _ v => v

/-- A Patchouli page is a Python dict. -/
abbrev Page := List (String × PValue)

/-- Python `page.get(key)` / `page[key]` lookup (first binding wins). -/
def pget (page : Page) (k : String) : Option PValue :=
  (page.find? (fun kv => kv.1 == k)).map (fun kv => kv.2)

/-- Source `patchouli.book.Entry`: stable id, display name, optional advancement
key and ordered pages. -/
structure Entry where
  id : String
  name : String
  advancement : Option String
  pages : List Page

/-- Source `patchouli.book.Category`: id, display name, description and entries. -/
structure Category where
  id : String
  name : String
  description : FormatTree
  entries : List Entry

/-- Source `patchouli.book.Book`: the top-level aggregate.  `blacklist` and
`spoilers` are Python sets of strings; list membership models set
membership. -/
structure Book where
  name : FormatTree
  landing_text : FormatTree
  categories : List Category
  blacklist : List String
  spoilers : List String

/-- Python `str(value)` for the values the renderer passes as attribute
values (strings, ints, bools).  The remaining constructors never reach
`str` in the source; they map to `""`. -/
def pyStr : PValue → String
  | PValue.s v => v
  | PValue.n v => Nat.repr v
  | PValue.b true => "True"
  | PValue.b false => "False"
  | PValue.null => "None"
  | PValue.list _ => ""
  | PValue.attrs _ => ""
  | PValue.fmt _ => ""
  | PValue.ops _ => ""

/-- Python truthiness of a `PValue` (`if anchor := ...`, `or ""`). -/
def pyTruthy : PValue → Bool
  | PValue.s v => !(v == "")
  | PValue.n v => !(v == 0)
  | PValue.b v => v
  | PValue.null => false
  | PValue.list vs => !vs.isEmpty
  | PValue.attrs kvs => !kvs.isEmpty
  | PValue.fmt _ => true
  | PValue.ops ps => !ps.isEmpty

/-- Source `tag_args` (collate_data.py line 18): renders a keyword-argument bag as
html attributes.  `clazz` becomes `class`; every other key has each `_`
replaced by `-`; the value is `repr(escape(str(value)))`. -/
def tag_args (kwargs : List (String × PValue)) : String :=
  strJoin (kwargs.map (fun kv =>
    " " ++ (if kv.1 == "clazz" then "class" else pyReplaceChar kv.1 '_' '-')
      ++ "=" ++ pyRepr (escape (pyStr kv.2))))

/-- One token of emitted markup: an opening pair tag (with its rendered
attribute string), a closing pair tag, a self-closing tag (`Stream.tag`),
or raw text (`Stream.text` output and directly printed template lines). -/
inductive Token where
  | openT (name : String) (kwargs : String)
  | closeT (name : String)
  | selfT (name : String) (kwargs : String)
  | raw (s : String)
deriving DecidableEq

/-- The exact string a token is printed as. -/
def Token.render : Token → String
  | Token.openT name kwargs => "<" ++ name ++ kwargs ++ ">"
  | Token.closeT name => "</" ++ name ++ ">"
  | Token.selfT name kwargs => "<" ++ name ++ kwargs ++ " />"
  | Token.raw s => s

/-- Render a token list to the output string. -/
def renderTokens : List Token → String
  | [] => ""
  | t :: ts => t.render ++ renderTokens ts

/-- Result of running a writer on the stream: the tokens it printed and
the exception it raised, if any. -/
abbrev Out := List Token × Option Err

/-- The writer that prints nothing and returns normally. -/
def Out.nop : Out := ([], none)

/-- Raise an exception without printing. -/
def Out.raise (e : Err) : Out := ([], some e)

/-- Sequential composition: if `a` raised, `b` never runs (its output is
not printed and the exception propagates). -/
def Out.seq (a b : Out) : Out :=
  match a with
  | (ts, some e) => (ts, some e)
  | (ts, none) => (ts ++ b.1, b.2)

/-- Source `Stream.text`: print `html.escape(txt)`. -/
def emitText (txt : String) : Out := ([Token.raw (escape txt)], none)

/-- A direct `print(s, end="", file=stream)` with no escaping. -/
def emitRaw (s : String) : Out := ([Token.raw s], none)

/-- Source `Stream.tag`: a self-closing tag. -/
def tagSelf (name : String) (kwargs : List (String × PValue)) : Out :=
  ([Token.selfT name (tag_args kwargs)], none)

/-- Source `with stream.pair_tag(name, **kwargs): body` — the closing tag is
printed by `__exit__` on the normal and on the exceptional exit path. -/
def withPair (name : String) (kw : String) (body : Out) : Out :=
  (Token.openT name kw :: body.1 ++ [Token.closeT name], body.2)

/-- Source `with stream.pair_tag_if(cond, name, **kwargs): body`. -/
def pair_tag_if (cond : Bool) (name : String) (kw : String) (body : Out) : Out :=
  if cond then withPair name kw body else body

/-- Source `Stream.empty_pair_tag`. -/
def empty_pair_tag (name : String) (kw : String) : Out :=
  withPair name kw Out.nop

/-- Run an `Except`-valued extraction, then continue; a raised exception
is printed nowhere and propagates. -/
def emitTextE : Except Err String → Out
  | Except.error e => Out.raise e
  | Except.ok v => emitText v

/-- The namespace-to-base-URL table (`repo_names`, line 12). -/
def repo_names : List (String × String) :=
  [("hexcasting",
    "https://raw.githubusercontent.com/gamma-delta/HexMod/main/Common/src/main/resources")]

/-- Source `repo_names[modid]` lookup; `none` models the `KeyError` case. -/
def repoLookup (modid : String) : Option String :=
  (repo_names.find? (fun kv => kv.1 == modid)).map (fun kv => kv.2)

/-- Source `get_format` (line 76): maps a style tag and its value to the pair tag
to wrap children in — returned as (element name, rendered attribute
string), which is exactly what the Python `PairTag` object stores.  An
unrecognized tag raises `ValueError("Unknown format type: " + ty)`.
A value of the wrong Python type for the tag raises a `TypeError` where
the Python operation on it would (`**value`, `+` and `in` require the
shapes noted; f-string interpolation accepts anything via `str`). -/
def get_format (ty : String) (value : PValue) : Except Err (String × String) :=
  if ty == "para" then
    match value with
    | PValue.attrs kvs =>
      Except.ok ("p", tag_args (kvs.map (fun kv => (kv.1, PValue.s kv.2))))
    | _ => Except.error (Err.typeError "para value must be a mapping")
  else if ty == "color" then
    Except.ok ("span", tag_args [("style", PValue.s ("color: #" ++ pyStr value))])
  else if ty == "link" then
    match value with
    | PValue.s v =>
      let link := if strContains v "://" then v else "#" ++ pyReplaceChar v '#' '@'
      Except.ok ("a", tag_args [("href", PValue.s link)])
    | _ => Except.error (Err.typeError "link value must be a str")
  else if ty == "tooltip" then
    Except.ok ("span", tag_args [("clazz", PValue.s "has-tooltip"), ("title", value)])
  else if ty == "cmd_click" then
    match value with
    | PValue.s v =>
      Except.ok ("span", tag_args
        [("clazz", PValue.s "has-cmd_click"),
         ("title", PValue.s ("When clicked, would execute: " ++ v))])
    | _ => Except.error (Err.typeError "cmd_click value must be a str")
  else if ty == "obf" then
    Except.ok ("span", tag_args [("clazz", PValue.s "obfuscated")])
  else if ty == "bold" then
    Except.ok ("strong", tag_args [])
  else if ty == "italic" then
    Except.ok ("i", tag_args [])
  else if ty == "strikethrough" then
    Except.ok ("s", tag_args [])
  else if ty == "underline" then
    Except.ok ("span", tag_args [("style", PValue.s "text-decoration: underline")])
  else
    Except.error (Err.valueError ("Unknown format type: " ++ ty))

/-- The ten style tags `get_format` recognizes (besides `"base"`, which
`write_block` handles before calling `get_format`). -/
def styleTags : List String :=
  ["para", "color", "link", "tooltip", "cmd_click", "obf", "bold", "italic",
   "strikethrough", "underline"]

/-- Source `entry_spoilered` (line 105): `entry.get("advancement", None) in
root_info.spoilers`.  The spoiler set only ever holds strings (it is
filled from `line.split()`), so a missing advancement (`None`) is never a
member. -/
def entry_spoilered (root_info : Book) (entry : Entry) : Bool :=
  match entry.advancement with
  | some adv => root_info.spoilers.contains adv
  | none => false

/-- Source `category_spoilered` (line 109): all entries individually spoilered. -/
def category_spoilered (root_info : Book) (category : Category) : Bool :=
  category.entries.all (fun ent => entry_spoilered root_info ent)

/-- The tokens the `isinstance(block, str)` branch of `write_block` prints:
split the string on newlines, emit the first line, then `<br />` before
each later line; every line is printed via `Stream.text` (escaped). -/
def leafTokens (s : String) : List Token :=
  match pySplitChar '\n' s with
  | [] => []
  | l0 :: rest =>
    Token.raw (escape l0)
      :: (rest.map (fun l => [Token.selfT "br" "", Token.raw (escape l)])).flatten

mutual

/-- Source `write_block` (line 113): a string leaf prints escaped lines joined by
`<br />`; a `base` node renders its children with no wrapper; any other
style resolves through `get_format` (raising before anything is printed
if the tag is unknown) and wraps the children in the resulting pair tag,
whose closing tag is printed even when a child raises. -/
def write_block : FormatTree → Out
  | FormatTree.str s => (leafTokens s, none)
  | FormatTree.tree sty children =>
    if sty.type == "base" then write_blocks children
    else
      match get_format sty.type sty.value with
      | Except.error e => Out.raise e
      | Except.ok tg => withPair tg.1 tg.2 (write_blocks children)

/-- The `for child in block.children: write_block(out, child)` loop. -/
def write_blocks : FTList → Out
  | FTList.nil => Out.nop
  | FTList.cons c cs => Out.seq (write_block c) (write_blocks cs)

end

/-- Source `anchor_toc` (line 133). -/
def anchor_toc : Out :=
  withPair "a"
    (tag_args [("href", PValue.s "#table-of-contents"),
               ("clazz", PValue.s "permalink small"),
               ("title", PValue.s "Jump to top")])
    (empty_pair_tag "i" (tag_args [("clazz", PValue.s "bi bi-box-arrow-up")]))

/-- Source `permalink` (line 140). -/
def permalink (link : String) : Out :=
  withPair "a"
    (tag_args [("href", PValue.s link),
               ("clazz", PValue.s "permalink small"),
               ("title", PValue.s "Permalink")])
    (empty_pair_tag "i" (tag_args [("clazz", PValue.s "bi bi-link-45deg")]))

/-- Source `page[k]` where the source then uses the value as a `str`. -/
def pgetStr (page : Page) (k : String) : Except Err String :=
  match pget page k with
  | some (PValue.s v) => Except.ok v
  | some _ => Except.error (Err.typeError k)
  | none => Except.error (Err.keyError k)

/-- Source `page[k]` where the source then iterates the value as a list of
strings. -/
def pgetStrList (page : Page) (k : String) : Except Err (List String) :=
  match pget page k with
  | some (PValue.list vs) => Except.ok vs
  | some _ => Except.error (Err.typeError k)
  | none => Except.error (Err.keyError k)

/-- Source `page["op"]`: a list of pattern operations. -/
def pgetOps (page : Page) (k : String) : Except Err (List PatternInfo) :=
  match pget page k with
  | some (PValue.ops ps) => Except.ok ps
  | some _ => Except.error (Err.typeError k)
  | none => Except.error (Err.keyError k)

/-- The argument of `write_block(out, page["text"])`: the source accepts a
`FormatTree` or a plain `str`. -/
def blockOf : PValue → Except Err FormatTree
  | PValue.fmt t => Except.ok t
  | PValue.s v => Except.ok (FormatTree.str v)
  | _ => Except.error (Err.typeError "write_block needs a FormatTree or str")

/-- Source `write_block(out, page["text"])` with the required lookup. -/
def write_text_field (page : Page) : Out :=
  match pget page "text" with
  | none => Out.raise (Err.keyError "text")
  | some v =>
    match blockOf v with
    | Except.error e => Out.raise e
    | Except.ok t => write_block t

/-- Source `if "text" in page: write_block(out, page["text"])`. -/
def optional_text (page : Page) : Out :=
  match pget page "text" with
  | none => Out.nop
  | some v =>
    match blockOf v with
    | Except.error e => Out.raise e
    | Except.ok t => write_block t

/-- Source `page.get("header", page.get("title", None))` as used by `out.text`
inside the `<h4>`: a present value must be a string (`escape` would raise
on anything else, including the unreachable `None` default). -/
def headerValue (page : Page) : Except Err String :=
  match pget page "header" with
  | some (PValue.s v) => Except.ok v
  | some _ => Except.error (Err.typeError "header")
  | none =>
    match pget page "title" with
    | some (PValue.s v) => Except.ok v
    | some _ => Except.error (Err.typeError "title")
    | none => Except.error (Err.typeError "NoneType")

/-- Source `page.get(k, None) or ""` in the pattern-title branch: the field value
if present and truthy, else nothing. -/
def getOrEmptyTruthy (page : Page) (k : String) : Option PValue :=
  match pget page k with
  | some v => if pyTruthy v then some v else none
  | none => none

/-- The `for name in page["item_name"]` loop of the `patchouli:crafting`
branch: `" and "` before every name but the first, each name in a `code`
element. -/
def craftingLoop : Bool → List String → Out
  | _, [] => Out.nop
  | first, name :: rest =>
    Out.seq (if first then Out.nop else emitText " and ")
      (Out.seq (withPair "code" "" (emitText name)) (craftingLoop false rest))

/-- The `for i in recipes[1:]` loop of the `hexcasting:crafting_multi`
branch: `", "` then the name in a `code` element. -/
def craftingMultiLoop : List String → Out
  | [] => Out.nop
  | i :: rest =>
    Out.seq (emitText ", ")
      (Out.seq (withPair "code" "" (emitText i)) (craftingMultiLoop rest))

/-- The `for img in page["images"]` loop of the `patchouli:image` branch:
`modid, coords = img.split(":")` (a `ValueError` unless exactly two
parts), then `repo_names[modid]` (a `KeyError` naming the namespace when
it is absent), then an `img` pair tag with the resolved `src`. -/
def imagesLoop : List String → Out
  | [] => Out.nop
  | img :: imgs =>
    match pySplitChar ':' img with
    | [modid, coords] =>
      match repoLookup modid with
      | none => Out.raise (Err.keyError modid)
      | some base =>
        Out.seq
          (empty_pair_tag "img"
            (tag_args [("src", PValue.s (base ++ "/assets/" ++ modid ++ "/" ++ coords))]))
          (imagesLoop imgs)
    | _ => Out.raise (Err.valueError "unpack img.split")

/-- The `for pattern in page["op"]` loop of the pattern branches. -/
def opsLoop : List PatternInfo → Out
  | [] => Out.nop
  | p :: ps =>
    Out.seq
      (withPair "canvas"
        (tag_args [("clazz", PValue.s "spell-viz"),
                   ("width", PValue.n 216),
                   ("height", PValue.n 216),
                   ("data_string", PValue.s p.angle_sig),
                   ("data_start", PValue.s (pyLower p.direction)),
                   ("data_per_world", PValue.b p.is_per_world)])
        (emitText ("Your browser does not support visualizing patterns. Pattern code: "
          ++ p.angle_sig)))
      (opsLoop ps)

/-- The page kinds `write_page` dispatches on (everything else falls to
the TODO marker). -/
def recognizedKinds : List String :=
  ["patchouli:text", "patchouli:empty", "patchouli:link", "patchouli:spotlight",
   "patchouli:crafting", "patchouli:image", "hexcasting:crafting_multi",
   "hexcasting:brainsweep", "hexcasting:pattern", "hexcasting:manual_pattern_nosig",
   "hexcasting:manual_pattern"]

/-- The `ty = page["type"]` dispatch of `write_page` (lines 158-251). -/
def write_page_dispatch (page : Page) (anchor_id : Option String) : Out :=
  match pgetStr page "type" with
  | Except.error e => Out.raise e
  | Except.ok ty =>
    if ty == "patchouli:text" then
      write_text_field page
    else if ty == "patchouli:empty" then
      Out.nop
    else if ty == "patchouli:link" then
      Out.seq (write_text_field page)
        (withPair "h4" (tag_args [("clazz", PValue.s "linkout")])
          (match pgetStr page "url" with
           | Except.error e => Out.raise e
           | Except.ok url =>
             withPair "a" (tag_args [("href", PValue.s url)])
               (emitTextE (pgetStr page "link_text"))))
    else if ty == "patchouli:spotlight" then
      Out.seq
        (withPair "h4" (tag_args [("clazz", PValue.s "spotlight-title page-header")])
          (emitTextE (pgetStr page "item_name")))
        (optional_text page)
    else if ty == "patchouli:crafting" then
      Out.seq
        (withPair "blockquote" (tag_args [("clazz", PValue.s "crafting-info")])
          (Out.seq (emitText "Depicted in the book: The crafting recipe for the ")
            (match pgetStrList page "item_name" with
             | Except.error e => Out.raise e
             | Except.ok names =>
               Out.seq (craftingLoop true names) (emitText "."))))
        (optional_text page)
    else if ty == "patchouli:image" then
      Out.seq
        (withPair "p" (tag_args [("clazz", PValue.s "img-wrapper")])
          (match pgetStrList page "images" with
           | Except.error e => Out.raise e
           | Except.ok imgs => imagesLoop imgs))
        (optional_text page)
    else if ty == "hexcasting:crafting_multi" then
      Out.seq
        (match pgetStrList page "item_name" with
         | Except.error e => Out.raise e
         | Except.ok recipes =>
           withPair "blockquote" (tag_args [("clazz", PValue.s "crafting-info")])
             (Out.seq (emitText "Depicted in the book: Several crafting recipes, for the ")
               (match recipes with
                | [] => Out.raise Err.indexError
                | r0 :: rest =>
                  Out.seq (withPair "code" "" (emitText r0))
                    (Out.seq (craftingMultiLoop rest) (emitText ".")))))
        (optional_text page)
    else if ty == "hexcasting:brainsweep" then
      Out.seq
        (withPair "blockquote" (tag_args [("clazz", PValue.s "crafting-info")])
          (Out.seq (emitText "Depicted in the book: A mind-flaying recipe producing the ")
            (Out.seq (withPair "code" "" (emitTextE (pgetStr page "output_name")))
              (emitText "."))))
        (optional_text page)
    else if ty == "hexcasting:pattern" || ty == "hexcasting:manual_pattern_nosig"
        || ty == "hexcasting:manual_pattern" then
      Out.seq
        (match pget page "name" with
         | none => Out.nop
         | some nameVal =>
           withPair "h4" (tag_args [("clazz", PValue.s "pattern-title")])
             (let inp := match getOrEmptyTruthy page "input" with
                | some v => pyStr v
                | none => ""
              let oup := match getOrEmptyTruthy page "output" with
                | some v => pyStr v
                | none => ""
              let pipe := pyStrip (inp ++ " → " ++ oup)
              let suffix := if !(inp == "") || !(oup == "") then " (" ++ pipe ++ ")" else ""
              Out.seq (emitText (pyStr nameVal ++ suffix))
                (match anchor_id with
                 | some aid => permalink ("#" ++ aid)
                 | none => Out.nop)))
        (Out.seq
          (withPair "details" (tag_args [("clazz", PValue.s "spell-collapsible")])
            (Out.seq (empty_pair_tag "summary" (tag_args [("clazz", PValue.s "collapse-spell")]))
              (match pgetOps page "op" with
               | Except.error e => Out.raise e
               | Except.ok ps => opsLoop ps)))
          (write_text_field page))
    else
      Out.seq
        (withPair "p" (tag_args [("clazz", PValue.s "todo-note")])
          (emitText ("TODO: Missing processor for type: " ++ ty)))
        (optional_text page)

/-- The body of `write_page` inside the optional anchor `div`: the shared
`<h4>` header (when `"header" in page or "title" in page`) with its
permalink, then the kind dispatch. -/
def write_page_body (page : Page) (anchor_id : Option String) : Out :=
  Out.seq
    (if (pget page "header").isSome || (pget page "title").isSome then
      withPair "h4" ""
        (Out.seq (emitTextE (headerValue page))
          (match anchor_id with
           | some aid => permalink ("#" ++ aid)
           | none => Out.nop))
    else Out.nop)
    (write_page_dispatch page anchor_id)

/-- Source `if anchor := page.get("anchor"): anchor_id = pageid + "@" + anchor`:
the anchor id exists exactly when the anchor field is present and truthy
(for the string anchors of the data model: non-empty). -/
def anchorIdOf (pageid : String) (page : Page) : Option String :=
  match pget page "anchor" with
  | some (PValue.s a) => if a == "" then none else some (pageid ++ "@" ++ a)
  | _ => none

/-- Source `write_page` (line 145): the whole page body is wrapped in
`div[id=anchor_id]` when the anchor id exists, and a trailing `<br />` is
printed after the wrapper (provided nothing raised). -/
def write_page (pageid : String) (page : Page) : Out :=
  let anchor_id : Option String := anchorIdOf pageid page
  Out.seq
    (match anchor_id with
     | some aid => withPair "div" (tag_args [("id", PValue.s aid)])
         (write_page_body page anchor_id)
     | none => write_page_body page anchor_id)
    (tagSelf "br" [])

/-- A `for x in xs: f(x)` loop over the stream (stops at the first
exception, which propagates). -/
def forEachOut : List α → (α → Out) → Out
  | [], _ => Out.nop
  | x :: xs, f => Out.seq (f x) (forEachOut xs f)

/-- Source `write_entry` (line 255): `div[id=entry.id]`, a `div.spoilered`
wrapper when the entry is spoilered, the `<h3>` title with
table-of-contents anchor and permalink, then every page. -/
def write_entry (book : Book) (entry : Entry) : Out :=
  withPair "div" (tag_args [("id", PValue.s entry.id)])
    (pair_tag_if (entry_spoilered book entry) "div"
      (tag_args [("clazz", PValue.s "spoilered")])
      (Out.seq
        (withPair "h3" (tag_args [("clazz", PValue.s "entry-title page-header")])
          (Out.seq (write_block (FormatTree.str entry.name))
            (Out.seq anchor_toc (permalink ("#" ++ entry.id)))))
        (forEachOut entry.pages (fun page => write_page entry.id page))))

/-- Source `write_category` (line 266): `section[id=category.id]`; the `<h2>`
title and the description sit inside a `div.spoilered` wrapper exactly
when every entry is spoilered; then every entry whose id is not
blacklisted. -/
def write_category (book : Book) (category : Category) : Out :=
  withPair "section" (tag_args [("id", PValue.s category.id)])
    (Out.seq
      (pair_tag_if (category_spoilered book category) "div"
        (tag_args [("clazz", PValue.s "spoilered")])
        (Out.seq
          (withPair "h2" (tag_args [("clazz", PValue.s "category-title page-header")])
            (Out.seq (write_block (FormatTree.str category.name))
              (Out.seq anchor_toc (permalink ("#" ++ category.id)))))
          (write_block category.description)))
      (forEachOut category.entries (fun entry =>
        if !(book.blacklist.contains entry.id) then write_entry book entry else Out.nop)))

/-- Source `write_toc` (line 281): the table of contents header, then one
collapsible block per category listing every entry (the blacklist is not
consulted here). -/
def write_toc (book : Book) : Out :=
  Out.seq
    (withPair "h2" (tag_args [("id", PValue.s "table-of-contents"),
                              ("clazz", PValue.s "page-header")])
      (Out.seq (emitText "Table of Contents")
        (Out.seq
          (withPair "a"
            (tag_args [("href", PValue.s "javascript:void(0)"),
                       ("clazz", PValue.s "permalink toggle-link small"),
                       ("data_target", PValue.s "toc-category"),
                       ("title", PValue.s "Toggle all")])
            (empty_pair_tag "i" (tag_args [("clazz", PValue.s "bi bi-list-nested")])))
          (permalink "#table-of-contents"))))
    (forEachOut book.categories (fun category =>
      withPair "details" (tag_args [("clazz", PValue.s "toc-category")])
        (Out.seq
          (withPair "summary" ""
            (withPair "a"
              (tag_args [("href", PValue.s ("#" ++ category.id)),
                         ("clazz", PValue.s
                           (if category_spoilered book category then "spoilered" else ""))])
              (emitText category.name)))
          (withPair "ul" ""
            (forEachOut category.entries (fun entry =>
              withPair "li" ""
                (withPair "a"
                  (tag_args [("href", PValue.s ("#" ++ entry.id)),
                             ("clazz", PValue.s
                               (if entry_spoilered book entry then "spoilered" else ""))])
                  (emitText entry.name))))))))

/-- Source `write_book` (line 313): container, jumbotron header with title and
landing text, nav with the table of contents, main body with every
category. -/
def write_book (book : Book) : Out :=
  withPair "div" (tag_args [("clazz", PValue.s "container")])
    (Out.seq
      (withPair "header" (tag_args [("clazz", PValue.s "jumbotron")])
        (Out.seq
          (withPair "h1" (tag_args [("clazz", PValue.s "book-title")])
            (write_block book.name))
          (write_block book.landing_text)))
      (Out.seq
        (withPair "nav" "" (write_toc book))
        (withPair "main" (tag_args [("clazz", PValue.s "book-body")])
          (forEachOut book.categories (fun category => write_category book category)))))

/-- The line loop of `generate_docs` (line 331).  Note the control
structure of the source: the `#DO_NOT_RENDER` test is a separate `if`
(the line then still reaches the `else` branch and is printed to the
output), while `#SPOILER` / `#DUMP_BODY_HERE` / plain lines form an
`if`/`elif`/`else` chain.  The blacklist and spoiler sets grow as the
scan proceeds. -/
def gdLoop : Book → List String → Out
  | _, [] => Out.nop
  | book, line :: rest =>
    let book :=
      if strStartsWith line "#DO_NOT_RENDER" then
        { book with blacklist := book.blacklist ++ (splitWs line).drop 1 }
      else book
    if strStartsWith line "#SPOILER" then
      gdLoop { book with spoilers := book.spoilers ++ (splitWs line).drop 1 } rest
    else if line == "#DUMP_BODY_HERE\n" then
      Out.seq (write_book book) (Out.seq (emitRaw "\n") (gdLoop book rest))
    else
      Out.seq (emitRaw line) (gdLoop book rest)

/-- Source `generate_docs` (line 326): scan the template line by line
(`template.splitlines(True)`), then return the buffer contents.  The
second component models an exception propagating out (in which case the
Python function returns nothing; the first component is then the buffer
contents at the moment of the raise). -/
def generate_docs (book : Book) (template : String) : String × Option Err :=
  let r := gdLoop book (pySplitlinesKeepends template)
  (renderTokens r.1, r.2)

/-- Concatenation of all text printed through the stream (the `raw`
tokens), i.e. the document with its markup tags deleted. -/
def textContent : List Token → String
  | [] => ""
  | Token.raw s :: ts => s ++ textContent ts
  | _ :: ts => textContent ts

/-- Tag-matching checker: run a stack of open element names through a
token list; `none` means a close tag did not match the most recently
opened unmatched tag. -/
def balrun : Option (List String) → List Token → Option (List String)
  | none, _ => none
  | some st, [] => some st
  | some st, Token.openT n _ :: ts => balrun (some (n :: st)) ts
  | some st, Token.closeT n :: ts =>
    match st with
    | [] => none
    | n2 :: rest => if n == n2 then balrun (some rest) ts else none
  | some st, Token.selfT _ _ :: ts => balrun (some st) ts
  | some st, Token.raw _ :: ts => balrun (some st) ts

/-- Is the token a pair-tag opener? -/
def isOpenTok : Token → Bool
  | Token.openT _ _ => true
  | _ => false

/-- Is the token a pair-tag closer? -/
def isCloseTok : Token → Bool
  | Token.closeT _ => true
  | _ => false

/-! Concrete fixtures used by witnesses and counterexamples. -/

/-- A one-paragraph text page. -/
def e1page : Page := [("type", PValue.s "patchouli:text"), ("text", PValue.s "hello")]

/-- A one-paragraph text page. -/
def e2page : Page := [("type", PValue.s "patchouli:text"), ("text", PValue.s "world")]

/-- Entry `e1`, gated behind advancement `adv1`. -/
def ent1 : Entry :=
  { id := "e1", name := "E1", advancement := some "adv1", pages := [e1page] }

/-- Entry `e2`, with no advancement. -/
def ent2 : Entry :=
  { id := "e2", name := "E2", advancement := none, pages := [e2page] }

/-- A category holding `e1` and `e2`. -/
def cat0 : Category :=
  { id := "cat0", name := "Cat", description := FormatTree.str "D",
    entries := [ent1, ent2] }

/-- The scenario book, with empty blacklist/spoiler sets (the template
directives fill them). -/
def book0 : Book :=
  { name := FormatTree.str "B", landing_text := FormatTree.str "L",
    categories := [cat0], blacklist := [], spoilers := [] }

/-- The end-to-end scenario template: one blacklist directive, one spoiler
directive, one body marker. -/
def tmpl2 : String := "#DO_NOT_RENDER e2\n#SPOILER adv1\n#DUMP_BODY_HERE\n"

/-- A book whose spoiler set already holds `adv1`. -/
def bookSp : Book := { book0 with spoilers := ["adv1"], blacklist := ["e2"] }

/-- A category whose only entry is the spoilered `e1`. -/
def catSp : Category := { cat0 with entries := [ent1] }

/-- A `crafting_multi` page with a single recipe name. -/
def cmPage1 : Page :=
  [("type", PValue.s "hexcasting:crafting_multi"), ("item_name", PValue.list ["a"])]

/-- An image page referencing namespace `foo`, which is not in
`repo_names`. -/
def imgPage : Page :=
  [("type", PValue.s "patchouli:image"), ("images", PValue.list ["foo:bar.png"])]

/-- A page of an unrecognized kind whose text body holds an unknown style
tag. -/
def c6badPage : Page :=
  [("type", PValue.s "totally:unknown"),
   ("text", PValue.fmt (FormatTree.tree (Style.mk "bogus" PValue.null) FTList.nil))]

/-- A page of an unrecognized kind with no other fields. -/
def c6okPage : Page := [("type", PValue.s "totally:unknown")]

/-- An empty page used as the remainder of the anchor test page. -/
def c9rest : Page := [("type", PValue.s "patchouli:empty")]

set_option maxRecDepth 40000

/-! Claim C1. -/

/-- C1: the claim says all three directive lines are consumed and stripped
from the output, in particular that no line beginning with
`#DO_NOT_RENDER` appears in the output of `generate_docs`.  The code
updates the blacklist in a separate `if` that then falls through to the
printing `else` of the `#SPOILER`/`#DUMP_BODY_HERE` chain, so the
blacklist directive line is echoed verbatim into the output: on the
template consisting of exactly one blacklist directive line the output is
that very line. -/
theorem c1_blacklist_directive_echoed :
    generate_docs book0 "#DO_NOT_RENDER e2\n" = ("#DO_NOT_RENDER e2\n", none) := by
  decide

/-! Claim C2. -/

/-- C2 counterexample: in the end-to-end scenario the claim says `e2`
appears nowhere in the output; in fact the output contains `e2` (in the
table of contents and in the echoed directive line). -/
theorem c2_e2_appears_in_output :
    strContains (generate_docs book0 tmpl2).1 "e2" = true := by
  decide

/-- C2 (amended): in the end-to-end scenario nothing raises, the body
renders only `e1` — wrapped in a spoiler div — and no entry block for
`e2` is emitted; but `e2` still appears in the table of contents as a
link target, and the blacklist directive line itself is echoed into the
output. -/
theorem c2_scenario_actual :
    (generate_docs book0 tmpl2).2 = none
  ∧ strContains (generate_docs book0 tmpl2).1
      ("<div id=" ++ sq ++ "e1" ++ sq ++ "><div class=" ++ sq ++ "spoilered" ++ sq ++ ">")
      = true
  ∧ strContains (generate_docs book0 tmpl2).1 ("<div id=" ++ sq ++ "e2") = false
  ∧ strContains (generate_docs book0 tmpl2).1 ("href=" ++ sq ++ "#e2" ++ sq) = true
  ∧ strContains (generate_docs book0 tmpl2).1 "#DO_NOT_RENDER e2" = true := by
  exact ⟨by decide, by decide, by decide, by decide, by decide⟩

/-! Claim C7. -/

/-- C7: a `link` style value without the URI scheme separator `://` is
turned into a local anchor — prefixed with `#`, every literal `#` in it
replaced by `@` — while a value containing `://` is used unchanged. -/
theorem c7_link_anchor_escaping (v : String) :
    (strContains v "://" = false →
      get_format "link" (PValue.s v)
        = Except.ok ("a", tag_args [("href", PValue.s ("#" ++ pyReplaceChar v '#' '@'))]))
  ∧ (strContains v "://" = true →
      get_format "link" (PValue.s v)
        = Except.ok ("a", tag_args [("href", PValue.s v)])) := by
  constructor <;> intro h <;> simp [get_format, h]

/-- C7 witness: `"foo#bar"` resolves to href `#foo@bar`; a full URL is
unchanged. -/
theorem c7_link_witness :
    get_format "link" (PValue.s "foo#bar")
      = Except.ok ("a", tag_args [("href", PValue.s "#foo@bar")])
  ∧ get_format "link" (PValue.s "https://example.com")
      = Except.ok ("a", tag_args [("href", PValue.s "https://example.com")]) :=
  ⟨(c7_link_anchor_escaping "foo#bar").1 (by decide),
   (c7_link_anchor_escaping "https://example.com").2 (by decide)⟩

/-! Claim C10. -/

/-- Helper: html-escaped text never contains a single quote (the quote
becomes the `&#x27;` entity). -/
theorem sq_not_mem_escapeChars (cs : List Char) : sqChar ∉ escapeChars cs := by
  induction cs with
  | nil => simp [escapeChars]
  | cons c rest ih =>
    intro hmem
    rcases List.mem_append.mp hmem with h | h
    · revert h
      unfold escapeChar
      repeat' split
      any_goals decide
      intro h
      have h2 : sqChar = c := List.mem_singleton.mp h
      subst h2
      simp_all
    · exact ih h

/-- Helper: `contains` form of `sq_not_mem_escapeChars`. -/
theorem escapeChars_contains_sq (cs : List Char) :
    (escapeChars cs).contains sqChar = false := by
  have := sq_not_mem_escapeChars cs
  simp [List.contains, this]

/-- C10: attribute emission (`tag_args`) normalizes names at the boundary
— `clazz` becomes the literal `class`, every other name has each `_`
replaced by `-` — and each value is stringified, html-escaped and wrapped
in (single) quotes. -/
theorem c10_tag_args_normalization :
    (∀ (k : String) (v : PValue) (kvs : List (String × PValue)),
      tag_args ((k, v) :: kvs)
        = " " ++ (if k == "clazz" then "class" else pyReplaceChar k '_' '-')
          ++ "=" ++ pyRepr (escape (pyStr v)) ++ tag_args kvs)
  ∧ (∀ v : PValue, pyRepr (escape (pyStr v))
        = sq ++ String.mk (pyReprBody sqChar (escape (pyStr v)).data) ++ sq)
  ∧ tag_args [("clazz", PValue.s "x")] = " class=" ++ sq ++ "x" ++ sq
  ∧ tag_args [("data_string", PValue.s "y")] = " data-string=" ++ sq ++ "y" ++ sq := by
  refine ⟨fun k v kvs => rfl, fun v => ?_, by decide, by decide⟩
  have h := sq_not_mem_escapeChars (pyStr v).data
  simp [pyRepr, escape, h]

/-! Claim C3. -/

/-- Helper: whatever the first action of a sequence raised, the printed
tokens start with its tokens. -/
theorem Out.seq_fst (a b : Out) :
    (Out.seq a b).1 = a.1 ++ (match a.2 with | some _ => [] | none => b.1) := by
  rcases a with ⟨ts, e⟩
  cases e <;> simp [Out.seq]

/-- C3: the rendered category is spoiler-wrapped (the token right after
the opening `section` is the opening `div.spoilered`) exactly when every
entry of the category is individually spoilered; an entry is spoilered
exactly when its advancement key is in the book's spoiler set, and an
entry with no advancement key is never spoilered (the spoiler set holds
only advancement-key strings). -/
theorem c3_spoiler_propagation (b : Book) (c : Category) :
    (((write_category b c).1)[1]?
        = some (Token.openT "div" (tag_args [("clazz", PValue.s "spoilered")]))
      ↔ ∀ e ∈ c.entries, entry_spoilered b e = true)
  ∧ (∀ (e : Entry) (a : String), e.advancement = some a →
      entry_spoilered b e = b.spoilers.contains a)
  ∧ (∀ e : Entry, e.advancement = none → entry_spoilered b e = false) := by
  refine ⟨?_, fun e a ha => by simp [entry_spoilered, ha], fun e ha => by simp [entry_spoilered, ha]⟩
  cases h : category_spoilered b c with
  | true =>
    have hall : ∀ e ∈ c.entries, entry_spoilered b e = true := by
      simpa [category_spoilered, List.all_eq_true] using h
    simp only [write_category, pair_tag_if, h, if_true, withPair, Out.seq_fst,
      List.cons_append, List.getElem?_cons_succ, List.getElem?_cons_zero]
    exact iff_of_true trivial hall
  | false =>
    have hnall : ¬ ∀ e ∈ c.entries, entry_spoilered b e = true := by
      intro hall
      have hc : category_spoilered b c = true := by
        unfold category_spoilered
        rw [List.all_eq_true]
        exact fun e he => hall e he
      rw [hc] at h
      cases h
    refine iff_of_false ?_ hnall
    simp [write_category, pair_tag_if, h, withPair, Out.seq_fst]

/-- C3 witness: on a concrete book/category whose one entry is gated
behind the spoilered advancement `adv1`, the spoiler wrapper is emitted;
the concrete entries realize both advancement cases. -/
theorem c3_witness :
    ((write_category bookSp catSp).1)[1]?
      = some (Token.openT "div" (tag_args [("clazz", PValue.s "spoilered")]))
  ∧ entry_spoilered bookSp ent1 = bookSp.spoilers.contains "adv1"
  ∧ entry_spoilered bookSp ent2 = false :=
  ⟨(c3_spoiler_propagation bookSp catSp).1.mpr (by decide),
   (c3_spoiler_propagation bookSp catSp).2.1 ent1 "adv1" rfl,
   (c3_spoiler_propagation bookSp catSp).2.2 ent2 rfl⟩

/-! Claim C5. -/

/-- C5: rendering a styled node whose tag is none of the ten enumerated
style tags raises a `ValueError` naming the tag, and an image page
referencing a namespace absent from `repo_names` raises a `KeyError`
carrying the namespace; in both cases the exception propagates (the page
render ends with that exception, producing no fallback output for the
offending item). -/
theorem c5_fail_fast :
    (∀ (ty : String) (v : PValue), styleTags.contains ty = false →
      get_format ty v = Except.error (Err.valueError ("Unknown format type: " ++ ty)))
  ∧ ∀ (pid : String) (page : Page) (img ns path : String),
      pget page "type" = some (PValue.s "patchouli:image") →
      pget page "images" = some (PValue.list [img]) →
      pySplitChar ':' img = [ns, path] →
      repoLookup ns = none →
      pget page "header" = none →
      pget page "title" = none →
      (write_page pid page).2 = some (Err.keyError ns) := by
  constructor
  · intro ty v h
    simp only [styleTags, List.contains_cons, List.contains_nil, Bool.or_eq_false_iff,
      beq_eq_false_iff_ne] at h
    obtain ⟨h1, h2, h3, h4, h5, h6, h7, h8, h9, h10, -⟩ := h
    simp [get_format, beq_eq_false_iff_ne.mpr h1, beq_eq_false_iff_ne.mpr h2,
      beq_eq_false_iff_ne.mpr h3, beq_eq_false_iff_ne.mpr h4, beq_eq_false_iff_ne.mpr h5,
      beq_eq_false_iff_ne.mpr h6, beq_eq_false_iff_ne.mpr h7, beq_eq_false_iff_ne.mpr h8,
      beq_eq_false_iff_ne.mpr h9, beq_eq_false_iff_ne.mpr h10]
  · intro pid page img ns path hty himg hsplit hrepo hh ht
    cases hA : anchorIdOf pid page with
    | none =>
      simp [write_page, hA, write_page_body, hh, ht, write_page_dispatch, pgetStr, hty,
        pgetStrList, himg, imagesLoop, hsplit, hrepo, Out.seq, Out.raise, Out.nop, withPair]
    | some aid =>
      simp [write_page, hA, write_page_body, hh, ht, write_page_dispatch, pgetStr, hty,
        pgetStrList, himg, imagesLoop, hsplit, hrepo, Out.seq, Out.raise, Out.nop, withPair]

/-- C5 witness: the tag `blah` raises the naming `ValueError`, and an
image page referencing namespace `foo` raises `KeyError` with that
namespace. -/
theorem c5_witness :
    get_format "blah" PValue.null
      = Except.error (Err.valueError ("Unknown format type: " ++ "blah"))
  ∧ (write_page "pid" imgPage).2 = some (Err.keyError "foo") :=
  ⟨c5_fail_fast.1 "blah" PValue.null (by decide),
   c5_fail_fast.2 "pid" imgPage "foo:bar.png" "foo" "bar.png" rfl rfl (by decide)
     (by decide) rfl rfl⟩

/-! Claim C6. -/

/-- C6 counterexample: the claim says `write_page` never raises on a page
of unrecognized kind; but an unrecognized-kind page whose optional text
body holds an unknown style tag makes `write_page` raise the style
`ValueError` (the fallback branch still renders `page["text"]`). -/
theorem c6_unknown_kind_can_raise :
    (write_page "pageid" c6badPage).2
      = some (Err.valueError "Unknown format type: bogus") := by
  decide

/-- C6 (amended): on a page of unrecognized kind the dispatch itself
raises nothing — the marker paragraph text `TODO: Missing processor for
type: <kind>` is printed and, when the page carries no text field (a
present one may still raise on its own), `write_page` returns without an
exception, so rendering of the following pages continues. -/
theorem c6_unknown_kind_marker (pid ty : String) (page : Page)
    (hty : pget page "type" = some (PValue.s ty))
    (hrec : recognizedKinds.contains ty = false)
    (htext : pget page "text" = none)
    (hh : pget page "header" = none)
    (ht : pget page "title" = none) :
    (write_page pid page).2 = none
  ∧ Token.raw (escape ("TODO: Missing processor for type: " ++ ty))
      ∈ (write_page pid page).1 := by
  simp only [recognizedKinds, List.contains_cons, List.contains_nil,
    Bool.or_eq_false_iff, beq_eq_false_iff_ne] at hrec
  obtain ⟨h1, h2, h3, h4, h5, h6, h7, h8, h9, h10, h11, -⟩ := hrec
  cases hA : anchorIdOf pid page with
  | none =>
    simp [write_page, hA, write_page_body, hh, ht, write_page_dispatch, pgetStr, hty,
      beq_eq_false_iff_ne.mpr h1, beq_eq_false_iff_ne.mpr h2, beq_eq_false_iff_ne.mpr h3,
      beq_eq_false_iff_ne.mpr h4, beq_eq_false_iff_ne.mpr h5, beq_eq_false_iff_ne.mpr h6,
      beq_eq_false_iff_ne.mpr h7, beq_eq_false_iff_ne.mpr h8, beq_eq_false_iff_ne.mpr h9,
      beq_eq_false_iff_ne.mpr h10, beq_eq_false_iff_ne.mpr h11,
      optional_text, htext, Out.seq, Out.nop, withPair, emitText, tagSelf]
  | some aid =>
    simp [write_page, hA, write_page_body, hh, ht, write_page_dispatch, pgetStr, hty,
      beq_eq_false_iff_ne.mpr h1, beq_eq_false_iff_ne.mpr h2, beq_eq_false_iff_ne.mpr h3,
      beq_eq_false_iff_ne.mpr h4, beq_eq_false_iff_ne.mpr h5, beq_eq_false_iff_ne.mpr h6,
      beq_eq_false_iff_ne.mpr h7, beq_eq_false_iff_ne.mpr h8, beq_eq_false_iff_ne.mpr h9,
      beq_eq_false_iff_ne.mpr h10, beq_eq_false_iff_ne.mpr h11,
      optional_text, htext, Out.seq, Out.nop, withPair, emitText, tagSelf]

/-- C6 witness: a bare unrecognized-kind page renders the marker and does
not raise. -/
theorem c6_witness :
    (write_page "pageid" c6okPage).2 = none
  ∧ Token.raw (escape ("TODO: Missing processor for type: " ++ "totally:unknown"))
      ∈ (write_page "pageid" c6okPage).1 :=
  c6_unknown_kind_marker "pageid" "totally:unknown" c6okPage rfl (by decide) rfl rfl rfl

/-! Claim C4. -/

/-- Helper: text content distributes over token concatenation. -/
theorem textContent_append (a b : List Token) :
    textContent (a ++ b) = textContent a ++ textContent b := by
  induction a with
  | nil => simp [textContent]
  | cons t ts ih => cases t <;> simp [textContent, ih, String.append_assoc]

/-- Helper: the `crafting_multi` tail loop raises nothing. -/
theorem craftingMultiLoop_err (rs : List String) : (craftingMultiLoop rs).2 = none := by
  induction rs with
  | nil => rfl
  | cons i rest ih => simp [craftingMultiLoop, Out.seq, withPair, emitText, ih]

/-- Helper: the text content of the `crafting_multi` tail loop is `", "`
then the (escaped) name, for each name in order. -/
theorem craftingMultiLoop_text (rs : List String) :
    textContent (craftingMultiLoop rs).1 = strJoin (rs.map (fun i => ", " ++ escape i)) := by
  induction rs with
  | nil => rfl
  | cons i rest ih =>
    simp [craftingMultiLoop, Out.seq, withPair, emitText, textContent, textContent_append,
      ih, strJoin, String.append_assoc, show escape ", " = ", " from rfl]

/-- Helper: each name of the tail loop is wrapped in a `code` element. -/
theorem craftingMultiLoop_code (rs : List String) :
    ∀ name ∈ rs,
      [Token.openT "code" "", Token.raw (escape name), Token.closeT "code"]
        <:+: (craftingMultiLoop rs).1 := by
  induction rs with
  | nil => intro name h; cases h
  | cons i rest ih =>
    intro name h
    have hshape : (craftingMultiLoop (i :: rest)).1
        = [Token.raw (escape ", "), Token.openT "code" "", Token.raw (escape i),
           Token.closeT "code"] ++ (craftingMultiLoop rest).1 := by
      simp [craftingMultiLoop, Out.seq, withPair, emitText]
    rcases List.mem_cons.mp h with h | h
    · subst h
      exact ⟨[Token.raw (escape ", ")], (craftingMultiLoop rest).1, by simp [hshape]⟩
    · rcases ih name h with ⟨s, t, hst⟩
      exact ⟨[Token.raw (escape ", "), Token.openT "code" "", Token.raw (escape i),
        Token.closeT "code"] ++ s, t, by simp [hshape, hst, List.append_assoc]⟩

/-- Helper: sequencing after an action that raised nothing concatenates
the outputs. -/
theorem Out.seq_of_ok (a b : Out) (h : a.2 = none) : Out.seq a b = (a.1 ++ b.1, b.2) := by
  rcases a with ⟨ts, e⟩
  cases e with
  | none => rfl
  | some e => exact absurd h (by simp)

/-- C4 (amended): for a `crafting_multi` page with recipe names
`r :: rs` (and no anchor/header/text), the text content of the rendered
page is the literal phrase `Depicted in the book: Several crafting
recipes, for the ` followed by the names separated by `", "` (no `and`
before the last) and a final `.`, with every name wrapped in a `code`
element.  (The claim omitted the `Depicted in the book: ` prefix.) -/
theorem c4_crafting_multi_callout (pid : String) (page : Page) (r : String)
    (rs : List String)
    (hty : pget page "type" = some (PValue.s "hexcasting:crafting_multi"))
    (hit : pget page "item_name" = some (PValue.list (r :: rs)))
    (ha : pget page "anchor" = none)
    (hh : pget page "header" = none)
    (ht : pget page "title" = none)
    (hx : pget page "text" = none) :
    textContent (write_page pid page).1
      = "Depicted in the book: Several crafting recipes, for the " ++ escape r
        ++ strJoin (rs.map (fun i => ", " ++ escape i)) ++ "."
  ∧ ∀ name ∈ r :: rs,
      [Token.openT "code" "", Token.raw (escape name), Token.closeT "code"]
        <:+: (write_page pid page).1 := by
  have hA : anchorIdOf pid page = none := by simp [anchorIdOf, ha]
  rcases hcm : craftingMultiLoop rs with ⟨lts, le⟩
  have hle : le = none := by
    have h2 := craftingMultiLoop_err rs
    rw [hcm] at h2
    exact h2
  subst hle
  have hshape : write_page pid page
      = (Token.openT "blockquote" (tag_args [("clazz", PValue.s "crafting-info")])
          :: Token.raw (escape "Depicted in the book: Several crafting recipes, for the ")
          :: Token.openT "code" "" :: Token.raw (escape r) :: Token.closeT "code"
          :: (lts
            ++ [Token.raw (escape "."), Token.closeT "blockquote", Token.selfT "br" ""]),
         none) := by
    simp [write_page, hA, write_page_body, hh, ht, write_page_dispatch, pgetStr, hty,
      pgetStrList, hit, optional_text, hx, Out.seq, Out.nop, withPair,
      emitText, tagSelf, hcm, show tag_args [] = "" from rfl]
  constructor
  · rw [hshape]
    have hltext : textContent lts = strJoin (rs.map (fun i => ", " ++ escape i)) := by
      have h3 := craftingMultiLoop_text rs
      rw [hcm] at h3
      exact h3
    simp [textContent, textContent_append, hltext, strJoin,
      String.append_assoc, show escape "." = "." from rfl,
      show escape "Depicted in the book: Several crafting recipes, for the "
        = "Depicted in the book: Several crafting recipes, for the " from rfl]
  · intro name h
    rcases List.mem_cons.mp h with h | h
    · subst h
      refine ⟨[Token.openT "blockquote" (tag_args [("clazz", PValue.s "crafting-info")]),
        Token.raw (escape "Depicted in the book: Several crafting recipes, for the ")],
        lts ++ [Token.raw (escape "."), Token.closeT "blockquote", Token.selfT "br" ""],
        ?_⟩
      simp [hshape]
    · have h4 := craftingMultiLoop_code rs name h
      rw [hcm] at h4
      rcases h4 with ⟨s, t, hst⟩
      refine ⟨[Token.openT "blockquote" (tag_args [("clazz", PValue.s "crafting-info")]),
        Token.raw (escape "Depicted in the book: Several crafting recipes, for the "),
        Token.openT "code" "", Token.raw (escape r), Token.closeT "code"] ++ s,
        t ++ [Token.raw (escape "."), Token.closeT "blockquote", Token.selfT "br" ""],
        ?_⟩
      have hst2 : s ++ ([Token.openT "code" "", Token.raw (escape name), Token.closeT "code"]
          ++ t) = lts := by
        simpa [List.append_assoc] using hst
      simp only [hshape, List.cons_append, List.nil_append, List.append_assoc]
      rw [← hst2]
      simp [List.append_assoc]

/-- C4 counterexample: on a `crafting_multi` page with the single recipe
name `a`, the callout's text content is not the claimed exact phrase
`Several crafting recipes, for the a.` — the code prefixes it with
`Depicted in the book: `. -/
theorem c4_counterexample :
    ¬ (textContent (write_page "pageid" cmPage1).1
        = "Several crafting recipes, for the a.") := by
  decide

/-- C4 witness: the amended phrasing at the concrete page with recipe
names `a`, `b`. -/
theorem c4_witness :
    textContent (write_page "pageid"
        [("type", PValue.s "hexcasting:crafting_multi"),
         ("item_name", PValue.list ["a", "b"])]).1
      = "Depicted in the book: Several crafting recipes, for the " ++ escape "a"
        ++ strJoin (["b"].map (fun i => ", " ++ escape i)) ++ "."
  ∧ ∀ name ∈ ["a", "b"],
      [Token.openT "code" "", Token.raw (escape name), Token.closeT "code"]
        <:+: (write_page "pageid"
          [("type", PValue.s "hexcasting:crafting_multi"),
           ("item_name", PValue.list ["a", "b"])]).1 :=
  c4_crafting_multi_callout "pageid"
    [("type", PValue.s "hexcasting:crafting_multi"),
     ("item_name", PValue.list ["a", "b"])]
    "a" ["b"] rfl rfl rfl rfl rfl rfl

/-! Claim C9. -/

/-- Helper: a dict lookup skips a binding with a different key. -/
theorem pget_cons_ne (k k2 : String) (v : PValue) (p : Page) (h : (k == k2) = false) :
    pget ((k, v) :: p) k2 = pget p k2 := by
  simp [pget, List.find?_cons, h]

/-- Helper: the body of `write_page` reads the page only through the
listed fields, so two pages agreeing on them render identically. -/
theorem write_page_body_ext (p1 p2 : Page) (aid : Option String)
    (h1 : pget p1 "header" = pget p2 "header")
    (h2 : pget p1 "title" = pget p2 "title")
    (h3 : pget p1 "type" = pget p2 "type")
    (h4 : pget p1 "text" = pget p2 "text")
    (h5 : pget p1 "url" = pget p2 "url")
    (h6 : pget p1 "link_text" = pget p2 "link_text")
    (h7 : pget p1 "item_name" = pget p2 "item_name")
    (h8 : pget p1 "images" = pget p2 "images")
    (h9 : pget p1 "output_name" = pget p2 "output_name")
    (h10 : pget p1 "op" = pget p2 "op")
    (h11 : pget p1 "name" = pget p2 "name")
    (h12 : pget p1 "input" = pget p2 "input")
    (h13 : pget p1 "output" = pget p2 "output") :
    write_page_body p1 aid = write_page_body p2 aid := by
  simp only [write_page_body, write_page_dispatch, pgetStr, pgetStrList, pgetOps,
    headerValue, optional_text, write_text_field, getOrEmptyTruthy,
    h1, h2, h3, h4, h5, h6, h7, h8, h9, h10, h11, h12, h13]

/-- C9: a page whose `anchor` field is present but equal to the empty
string renders exactly as if the field were absent — the walrus
`if anchor := page.get("anchor"):` tests truthiness, and `""` is falsy,
so no anchor div and no permalink are emitted. -/
theorem c9_empty_anchor_ignored (pid : String) (rest : Page)
    (h : pget rest "anchor" = none) :
    write_page pid (("anchor", PValue.s "") :: rest) = write_page pid rest := by
  have hA1 : anchorIdOf pid (("anchor", PValue.s "") :: rest) = none := by
    simp [anchorIdOf, pget, List.find?_cons]
  have hA2 : anchorIdOf pid rest = none := by simp [anchorIdOf, h]
  have hext := write_page_body_ext (("anchor", PValue.s "") :: rest) rest none
    (pget_cons_ne _ _ _ _ (by decide)) (pget_cons_ne _ _ _ _ (by decide))
    (pget_cons_ne _ _ _ _ (by decide)) (pget_cons_ne _ _ _ _ (by decide))
    (pget_cons_ne _ _ _ _ (by decide)) (pget_cons_ne _ _ _ _ (by decide))
    (pget_cons_ne _ _ _ _ (by decide)) (pget_cons_ne _ _ _ _ (by decide))
    (pget_cons_ne _ _ _ _ (by decide)) (pget_cons_ne _ _ _ _ (by decide))
    (pget_cons_ne _ _ _ _ (by decide)) (pget_cons_ne _ _ _ _ (by decide))
    (pget_cons_ne _ _ _ _ (by decide))
  simp only [write_page, hA1, hA2, hext]

/-- C9 witness: the concrete empty page with an empty anchor renders as
without the anchor binding. -/
theorem c9_witness :
    write_page "pid" (("anchor", PValue.s "") :: c9rest) = write_page "pid" c9rest :=
  c9_empty_anchor_ignored "pid" c9rest rfl

/-! Claim C8. -/

/-- Helper: running the checker over a concatenation runs it over the
parts in order. -/
theorem balrun_append (st : Option (List String)) (a b : List Token) :
    balrun st (a ++ b) = balrun (balrun st a) b := by
  induction a generalizing st with
  | nil =>
    cases st <;> simp [balrun]
  | cons t ts ih =>
    cases st with
    | none => simp [balrun]
    | some s =>
      cases t with
      | openT n kw => simp [balrun, ih]
      | closeT n =>
        cases s with
        | nil => simp [balrun]
        | cons n2 s2 =>
          by_cases h : (n == n2) = true
          · simp [balrun, h, ih]
          · simp [balrun, Bool.eq_false_iff.mpr h, ih, balrun]
      | selfT n kw => simp [balrun, ih]
      | raw v => simp [balrun, ih]

/-- Helper: tokens that are neither open nor close tags do not move the
checker. -/
theorem balrun_skips (toks : List Token)
    (h : ∀ tk ∈ toks, isOpenTok tk = false ∧ isCloseTok tk = false) :
    ∀ st : List String, balrun (some st) toks = some st := by
  induction toks with
  | nil => intro st; rfl
  | cons t ts ih =>
    intro st
    have ht := h t (List.mem_cons_self t ts)
    have hts : ∀ tk ∈ ts, isOpenTok tk = false ∧ isCloseTok tk = false :=
      fun tk htk => h tk (List.mem_cons_of_mem t htk)
    cases t with
    | openT n kw => simp [isOpenTok] at ht
    | closeT n => simp [isCloseTok] at ht
    | selfT n kw => simp [balrun, ih hts]
    | raw v => simp [balrun, ih hts]

/-- Helper: the string-leaf tokens are raw text and `<br />` only. -/
theorem leafTokens_no_pair (s : String) :
    ∀ tk ∈ leafTokens s, isOpenTok tk = false ∧ isCloseTok tk = false := by
  intro tk htk
  unfold leafTokens at htk
  rcases hsp : pySplitChar '\n' s with _ | ⟨l0, rest⟩ <;> rw [hsp] at htk
  · cases htk
  · rcases List.mem_cons.mp htk with h | h
    · subst h; exact ⟨rfl, rfl⟩
    · rcases List.mem_flatten.mp h with ⟨l2, hl2, hmem⟩
      rcases List.mem_map.mp hl2 with ⟨l3, _, hl3⟩
      subst hl3
      rcases List.mem_cons.mp hmem with h | hmem2
      · subst h; exact ⟨rfl, rfl⟩
      · rcases List.mem_cons.mp hmem2 with h | h
        · subst h; exact ⟨rfl, rfl⟩
        · cases h

mutual

/-- Helper: `write_block` leaves the open-tag stack as it found it, on
the normal and on the exceptional path alike. -/
theorem write_block_neutral (t : FormatTree) :
    ∀ st : List String, balrun (some st) ((write_block t).1) = some st :=
  match t with
  | FormatTree.str s => fun st => balrun_skips (leafTokens s) (leafTokens_no_pair s) st
  | FormatTree.tree sty children => fun st => by
    show balrun (some st) ((write_block (FormatTree.tree sty children)).1) = some st
    rw [write_block]
    by_cases hb : (sty.type == "base") = true
    · rw [if_pos hb]
      exact write_blocks_neutral children st
    · rw [if_neg hb]
      cases hgf : get_format sty.type sty.value with
      | error e => rfl
      | ok tg =>
        show balrun (some st)
          (Token.openT tg.1 tg.2 :: ((write_blocks children).1 ++ [Token.closeT tg.1]))
          = some st
        rw [show balrun (some st)
            (Token.openT tg.1 tg.2 :: ((write_blocks children).1 ++ [Token.closeT tg.1]))
            = balrun (some (tg.1 :: st)) ((write_blocks children).1 ++ [Token.closeT tg.1])
          from rfl]
        rw [balrun_append, write_blocks_neutral children (tg.1 :: st)]
        simp [balrun]

/-- Helper: the child loop is likewise stack-neutral. -/
theorem write_blocks_neutral (l : FTList) :
    ∀ st : List String, balrun (some st) ((write_blocks l).1) = some st :=
  match l with
  | FTList.nil => fun st => rfl
  | FTList.cons c cs => fun st => by
    show balrun (some st) ((Out.seq (write_block c) (write_blocks cs)).1) = some st
    rcases hc : write_block c with ⟨cts, ce⟩
    have hcn : balrun (some st) cts = some st := by
      have h2 := write_block_neutral c st
      rw [hc] at h2
      exact h2
    cases ce with
    | some e => simpa [Out.seq] using hcn
    | none =>
      simp only [Out.seq, balrun_append, hcn]
      exact write_blocks_neutral cs st

end

/-- Helper: a successful checker run relates the open/close counts to the
stack lengths. -/
theorem balrun_counts (toks : List Token) :
    ∀ st st2 : List String, balrun (some st) toks = some st2 →
      toks.countP isOpenTok + st.length = toks.countP isCloseTok + st2.length := by
  induction toks with
  | nil =>
    intro st st2 h
    have : st = st2 := by simpa [balrun] using h
    simp [this]
  | cons t ts ih =>
    intro st st2 h
    cases t with
    | openT n kw =>
      have h2 := ih (n :: st) st2 (by simpa [balrun] using h)
      simp [List.countP_cons, isOpenTok, isCloseTok] at h2 ⊢
      omega
    | closeT n =>
      cases st with
      | nil => simp [balrun] at h
      | cons n2 s2 =>
        by_cases hn : (n == n2) = true
        · have h2 := ih s2 st2 (by simpa [balrun, hn] using h)
          simp [List.countP_cons, isOpenTok, isCloseTok] at h2 ⊢
          omega
        · rw [show balrun (some (n2 :: s2)) (Token.closeT n :: ts)
              = balrun (if n == n2 then some s2 else none) ts from by
            simp [balrun]; split <;> simp_all [balrun]] at h
          rw [if_neg hn] at h
          rw [show balrun none ts = none from by cases ts <;> rfl] at h
          cases h
    | selfT n kw =>
      have h2 := ih st st2 (by simpa [balrun] using h)
      simp [List.countP_cons, isOpenTok, isCloseTok] at h2 ⊢
      omega
    | raw v =>
      have h2 := ih st st2 (by simpa [balrun] using h)
      simp [List.countP_cons, isOpenTok, isCloseTok] at h2 ⊢
      omega

/-- C8: for every `FormatTree` — of any depth, and including trees whose
rendering raises partway through (unknown style tags) — the markup
emitted by `write_block` is well-formed: running the tag-matching checker
from the empty stack ends in the empty stack (every close tag matches the
most recently opened unmatched tag), and the number of opening and
closing tags printed is equal.  Scoped emission (`withPair`) prints the
close tag even on the exceptional exit, which is what preserves the
balance on error paths. -/
theorem c8_write_block_balanced (t : FormatTree) :
    balrun (some []) ((write_block t).1) = some []
  ∧ (write_block t).1.countP isOpenTok = (write_block t).1.countP isCloseTok := by
  refine ⟨write_block_neutral t [], ?_⟩
  have h := balrun_counts ((write_block t).1) [] [] (write_block_neutral t [])
  simpa using h

end Hexdoc
